import Mathlib

/-!
# Verification of the Selve Home Server 2 integration against its specification

Shallow embedding of the device-state ingestion and reconciliation engine of the
`homeassistant-selve-2` integration: the status-flag bit decoder, the Commeo
state parser, the group/record decoders, the HTTP snapshot assembly
(`get_states`), the poll/UDP reconciliation (`async_update_data`) and the UDP
delta handler (`_udp_listener`).  Python dicts whose keys matter are modelled as
association lists, machine integers as `Int`/`Nat`, and fallible code as
`Except`/`Option`.
-/

namespace Selve

/-! ## Status flags (`CommeoReceiverState._parse_flags`, server.py 207-242) -/

/-- The 11 named booleans decoded from the raw Commeo status bitfield. -/
structure CommeoFlags where
  timeout : Bool
  overload : Bool
  obstacle : Bool
  emergency_alarm : Bool
  sensor_learned : Bool
  sensor_connected : Bool
  automatic_mode : Bool
  cc_timeout : Bool
  wind_alarm : Bool
  rain_alarm : Bool
  frost_alarm : Bool
deriving DecidableEq, Repr

/-- `bitSet m k` models the Python test `bool(m & (1 << k))` on a nonnegative
integer `m`: whether bit `k` of `m` is set. -/
def bitSet (m k : Nat) : Bool := (m / 2 ^ k) % 2 = 1

/-- Reversal of the 16-bit bit order, modelling
`int(f"{flags16:016b}"[::-1], 2)`: the binary string of `n` (16 digits, most
significant first) is reversed and re-read as binary, so bit `k` of the result
is bit `15 - k` of `n`. -/
def revBits16 (n : Nat) : Nat :=
  (List.range 16).foldl (fun acc i => acc * 2 + (n / 2 ^ i) % 2) 0

/-- `CommeoReceiverState._parse_flags`: mask to 16 bits (`flags & 0xFFFF`,
which on a Python `int`, negative included, is `flags mod 2^16`), reverse the
bit order, then extract the named bits; bit 5 of the reversed value is the
"sensor lost" bit, stored inverted as `sensor_connected`. -/
def parseFlags (flags : Int) : CommeoFlags :=
  let flags16 : Nat := (flags % 65536).toNat
  let rev := revBits16 flags16
  { timeout := bitSet rev 0
    overload := bitSet rev 1
    obstacle := bitSet rev 2
    emergency_alarm := bitSet rev 3
    sensor_learned := bitSet rev 4
    sensor_connected := !(bitSet rev 5)
    automatic_mode := bitSet rev 6
    cc_timeout := bitSet rev 7
    wind_alarm := bitSet rev 8
    rain_alarm := bitSet rev 9
    frost_alarm := bitSet rev 10 }

theorem revBits16_eq (n : Nat) :
    revBits16 n =
      ((((((((((((((((n / 2 ^ 0) % 2) * 2 + (n / 2 ^ 1) % 2) * 2
        + (n / 2 ^ 2) % 2) * 2 + (n / 2 ^ 3) % 2) * 2 + (n / 2 ^ 4) % 2) * 2
        + (n / 2 ^ 5) % 2) * 2 + (n / 2 ^ 6) % 2) * 2 + (n / 2 ^ 7) % 2) * 2
        + (n / 2 ^ 8) % 2) * 2 + (n / 2 ^ 9) % 2) * 2 + (n / 2 ^ 10) % 2) * 2
        + (n / 2 ^ 11) % 2) * 2 + (n / 2 ^ 12) % 2) * 2 + (n / 2 ^ 13) % 2) * 2
        + (n / 2 ^ 14) % 2) * 2 + (n / 2 ^ 15) % 2 := by
  simp [revBits16, List.range_succ, show List.range 1 = [0] from rfl]

/-- A number assembled most-significant-bit first from 16 bit values exposes
bit `b(15-k)` at position `k`. -/
theorem bitsum_bits (b0 b1 b2 b3 b4 b5 b6 b7 b8 b9 b10 b11 b12 b13 b14 b15 E : Nat)
    (_h0 : b0 < 2) (_h1 : b1 < 2) (_h2 : b2 < 2) (_h3 : b3 < 2) (_h4 : b4 < 2)
    (h5 : b5 < 2) (h6 : b6 < 2) (h7 : b7 < 2) (h8 : b8 < 2) (h9 : b9 < 2)
    (h10 : b10 < 2) (h11 : b11 < 2) (h12 : b12 < 2) (h13 : b13 < 2)
    (h14 : b14 < 2) (h15 : b15 < 2)
    (hE : E = (((((((((((((((b0 * 2 + b1) * 2 + b2) * 2 + b3) * 2 + b4) * 2
      + b5) * 2 + b6) * 2 + b7) * 2 + b8) * 2 + b9) * 2 + b10) * 2 + b11) * 2
      + b12) * 2 + b13) * 2 + b14) * 2 + b15)) :
    E / 2 ^ 0 % 2 = b15 ∧ E / 2 ^ 1 % 2 = b14 ∧ E / 2 ^ 2 % 2 = b13 ∧
    E / 2 ^ 3 % 2 = b12 ∧ E / 2 ^ 4 % 2 = b11 ∧ E / 2 ^ 5 % 2 = b10 ∧
    E / 2 ^ 6 % 2 = b9 ∧ E / 2 ^ 7 % 2 = b8 ∧ E / 2 ^ 8 % 2 = b7 ∧
    E / 2 ^ 9 % 2 = b6 ∧ E / 2 ^ 10 % 2 = b5 := by
  subst hE
  refine ⟨?_, ?_, ?_, ?_, ?_, ?_, ?_, ?_, ?_, ?_, ?_⟩ <;> omega

/-- Bits below position 16 are unaffected by first reducing mod `2 ^ 16`. -/
theorem mod_pow16_div (n j : Nat) (hj : j < 16) :
    n % 65536 / 2 ^ j % 2 = n / 2 ^ j % 2 := by
  have hj16 : j + (16 - j) = 16 := by omega
  have h65536 : (65536 : Nat) = 2 ^ j * 2 ^ (16 - j) := by
    rw [← pow_add, hj16]
    norm_num
  rw [h65536, Nat.mod_mul_right_div_self, Nat.mod_mod_of_dvd]
  exact dvd_pow_self 2 (by omega)

/-- C1 (counterexample): the claim "decoded timeout equals bit 0 of the value"
fails at the 16-bit value 1: bit 0 of 1 is set, yet the decoder (which first
reverses the 16-bit bit order) reports `timeout = false`. -/
theorem C1_counterexample :
    (parseFlags 1).timeout = false ∧ Nat.testBit 1 0 = true := by decide

/-- C1 (amended): the flag decoder first reverses the 16-bit bit order, so for
every flags value the decoded booleans read the bits from the top: timeout is
bit 15 of the value, overload bit 14, obstacle bit 13, emergency_alarm bit 12,
sensor_learned bit 11, automatic_mode bit 9, cc_timeout bit 8, wind_alarm
bit 7, rain_alarm bit 6, frost_alarm bit 5, and sensor_connected is the logical
negation of bit 10; bits 0-4 (and bits 16 and above) are ignored. -/
theorem C1_flag_bit_assignments (n : Nat) :
    (parseFlags n).timeout = n.testBit 15 ∧
    (parseFlags n).overload = n.testBit 14 ∧
    (parseFlags n).obstacle = n.testBit 13 ∧
    (parseFlags n).emergency_alarm = n.testBit 12 ∧
    (parseFlags n).sensor_learned = n.testBit 11 ∧
    (parseFlags n).sensor_connected = !(n.testBit 10) ∧
    (parseFlags n).automatic_mode = n.testBit 9 ∧
    (parseFlags n).cc_timeout = n.testBit 8 ∧
    (parseFlags n).wind_alarm = n.testBit 7 ∧
    (parseFlags n).rain_alarm = n.testBit 6 ∧
    (parseFlags n).frost_alarm = n.testBit 5 := by
  have hmask : ((n : Int) % 65536).toNat = n % 65536 := by omega
  obtain ⟨e0, e1, e2, e3, e4, e5, e6, e7, e8, e9, e10⟩ :=
    bitsum_bits (n % 65536 / 2 ^ 0 % 2) (n % 65536 / 2 ^ 1 % 2)
      (n % 65536 / 2 ^ 2 % 2) (n % 65536 / 2 ^ 3 % 2) (n % 65536 / 2 ^ 4 % 2)
      (n % 65536 / 2 ^ 5 % 2) (n % 65536 / 2 ^ 6 % 2) (n % 65536 / 2 ^ 7 % 2)
      (n % 65536 / 2 ^ 8 % 2) (n % 65536 / 2 ^ 9 % 2) (n % 65536 / 2 ^ 10 % 2)
      (n % 65536 / 2 ^ 11 % 2) (n % 65536 / 2 ^ 12 % 2) (n % 65536 / 2 ^ 13 % 2)
      (n % 65536 / 2 ^ 14 % 2) (n % 65536 / 2 ^ 15 % 2) (revBits16 (n % 65536))
      (by omega) (by omega) (by omega) (by omega) (by omega) (by omega)
      (by omega) (by omega) (by omega) (by omega) (by omega) (by omega)
      (by omega) (by omega) (by omega) (by omega) (revBits16_eq (n % 65536))
  simp only [parseFlags, hmask, bitSet, Nat.testBit_to_div_mod]
  rw [e0, e1, e2, e3, e4, e5, e6, e7, e8, e9, e10,
    mod_pow16_div n 15 (by norm_num), mod_pow16_div n 14 (by norm_num),
    mod_pow16_div n 13 (by norm_num), mod_pow16_div n 12 (by norm_num),
    mod_pow16_div n 11 (by norm_num), mod_pow16_div n 10 (by norm_num),
    mod_pow16_div n 9 (by norm_num), mod_pow16_div n 8 (by norm_num),
    mod_pow16_div n 7 (by norm_num), mod_pow16_div n 6 (by norm_num),
    mod_pow16_div n 5 (by norm_num)]
  exact ⟨rfl, rfl, rfl, rfl, rfl, rfl, rfl, rfl, rfl, rfl, rfl⟩

/-! ## JSON-like values and association lists (Python dicts) -/

/-- Values stored in a device's state dict: JSON null, integers and strings as
delivered by the gateway, plus the decoded flags record that the integration
itself attaches.  Equality is structural, matching Python `==` on these
shapes. -/
inductive JVal where
  | vnull : JVal
  | vint : Int → JVal
  | vstr : String → JVal
  | vflags : CommeoFlags → JVal
deriving DecidableEq, Repr

/-- A Python dict with string keys, as an association list (first binding of a
key is the authoritative one; dicts built by the program bind each key once). -/
abbrev AList (α : Type) : Type := List (String × α)

/-- `d.get k` / `d[k]` lookup, `none` when the key is absent. -/
def alGet {α : Type} : AList α → String → Option α
  | [], _ => none
  | (k, v) :: rest, key => if k = key then some v else alGet rest key

/-- `d[k] = v`: replace the binding of `k`, or append a new one. -/
def alSet {α : Type} : AList α → String → α → AList α
  | [], key, val => [(key, val)]
  | (k, v) :: rest, key, val =>
      if k = key then (key, val) :: rest else (k, v) :: alSet rest key val

/-- `d.update(other)`: set every binding of `other` into `d`, in order. -/
def alUpdate {α : Type} (d other : AList α) : AList α :=
  other.foldl (fun acc kv => alSet acc kv.1 kv.2) d

/-- The keys of an association list. -/
def alKeys {α : Type} (d : AList α) : List String := d.map Prod.fst

theorem alGet_alSet_self {α : Type} (d : AList α) (k : String) (v : α) :
    alGet (alSet d k v) k = some v := by
  induction d with
  | nil => simp [alSet, alGet]
  | cons hd tl ih =>
      obtain ⟨k', v'⟩ := hd
      by_cases h : k' = k <;> simp [alSet, alGet, h, ih]

theorem alGet_alSet_ne {α : Type} (d : AList α) (k k' : String) (v : α)
    (h : k ≠ k') : alGet (alSet d k v) k' = alGet d k' := by
  induction d with
  | nil => simp [alSet, alGet, h]
  | cons hd tl ih =>
      obtain ⟨k'', v''⟩ := hd
      by_cases h2 : k'' = k
      · subst h2
        simp [alSet, alGet, h]
      · simp only [alSet, if_neg h2, alGet]
        by_cases h3 : k'' = k' <;> simp [h3, ih]

/-! ## Error taxonomy for fallible decoding steps -/

/-- The Python exception classes raised by the decoding code. -/
inductive DecodeErr where
  | keyError : DecodeErr
  | valueError : DecodeErr
  | typeError : DecodeErr
deriving DecidableEq, Repr

/-! ## Python `int(s, 10)` (used by `CommeoReceiverState._parse_state`) -/

/-- ASCII whitespace stripped by Python `int()`. -/
def isPyWs (c : Char) : Bool :=
  c = ' ' ∨ c = '\t' ∨ c = '\n' ∨ c = '\r' ∨ c = '\x0b' ∨ c = '\x0c'

/-- Digit run after its first digit: `digit ('_'? digit)*`, as in Python's
integer grammar.  `afterU` records that the previous character was an
underscore separator (which must be followed by a digit and cannot repeat or
end the run). -/
def digitsRun : List Char → Bool → Nat → Option Nat
  | [], afterU, acc => if afterU then none else some acc
  | c :: rest, afterU, acc =>
      if c = '_' then (if afterU then none else digitsRun rest true acc)
      else if c.isDigit then digitsRun rest false (acc * 10 + (c.toNat - 48))
      else none

/-- A nonempty decimal-digit run (underscore separators allowed inside). -/
def digitsStart : List Char → Option Nat
  | [] => none
  | c :: rest => if c.isDigit then digitsRun rest false (c.toNat - 48) else none

/-- Python `int(s, 10)` on an ASCII string: strip surrounding whitespace, an
optional single sign, then a decimal digit run; anything else raises
`ValueError` (`none`). -/
def pyInt10 (s : String) : Option Int :=
  match ((s.data.dropWhile isPyWs).reverse.dropWhile isPyWs).reverse with
  | [] => none
  | c :: rest =>
      if c = '+' then (digitsStart rest).map Int.ofNat
      else if c = '-' then (digitsStart rest).map (fun n => -(n : Int))
      else (digitsStart (c :: rest)).map Int.ofNat

/-! ## `CommeoReceiverState._parse_state` (server.py 244-252) -/

/-- `_parse_state`: read `state["flags"]` (`KeyError` when absent); the
sentinel `"-"` is passed through untouched; otherwise the flags string is
parsed with `int(flags, 10)` (`ValueError` on a non-decimal string,
`TypeError` when the value is not a string) and the decoded flags dict is
stored under `state["attributes"]`. -/
def parseState (st : AList JVal) : Except DecodeErr (AList JVal) :=
  match alGet st "flags" with
  | none => .error .keyError
  | some f =>
      if f = .vstr "-" then .ok st
      else
        match f with
        | .vstr s =>
            match pyInt10 s with
            | some n => .ok (alSet st "attributes" (.vflags (parseFlags n)))
            | none => .error .valueError
        | _ => .error .typeError

/-- Hexadecimal digits (the alphabet of the flags field per the spec). -/
def isHexChar (c : Char) : Bool :=
  c.isDigit ∨ ('a' ≤ c ∧ c ≤ 'f') ∨ ('A' ≤ c ∧ c ≤ 'F')

theorem mem_of_mem_dropWhile {α : Type} (p : α → Bool) (l : List α) (c : α)
    (h : c ∈ l.dropWhile p) : c ∈ l := by
  induction l with
  | nil => simp [List.dropWhile] at h
  | cons hd tl ih =>
      rw [List.dropWhile] at h
      by_cases hp : p hd
      · simp only [hp] at h
        exact List.mem_cons_of_mem _ (ih h)
      · simp only [Bool.not_eq_true] at hp
        simpa [hp] using h

theorem digitsStart_none (l : List Char) (h : ∀ c ∈ l, c.isDigit = false) :
    digitsStart l = none := by
  cases l with
  | nil => rfl
  | cons c rest => simp [digitsStart, h c (List.mem_cons_self c rest)]

theorem digitsRun_all_digits (l : List Char) (h : ∀ c ∈ l, c.isDigit = true) :
    ∀ acc : Nat, ∃ n : Nat, digitsRun l false acc = some n := by
  induction l with
  | nil => exact fun acc => ⟨acc, rfl⟩
  | cons c rest ih =>
      intro acc
      have hc : c.isDigit = true := h c (List.mem_cons_self c rest)
      have hcne : c ≠ '_' := by
        intro he
        subst he
        exact absurd hc (by decide)
      obtain ⟨n, hn⟩ :=
        ih (fun c' hc' => h c' (List.mem_cons_of_mem c hc'))
          (acc * 10 + (c.toNat - 48))
      exact ⟨n, by simp [digitsRun, hcne, hc, hn]⟩

theorem pyInt10_none_of_no_digit (s : String)
    (h : ∀ c ∈ s.data, c.isDigit = false) : pyInt10 s = none := by
  have hsub : ∀ c ∈ ((s.data.dropWhile isPyWs).reverse.dropWhile isPyWs).reverse,
      c.isDigit = false := by
    intro c hc
    rw [List.mem_reverse] at hc
    have hc2 := mem_of_mem_dropWhile _ _ _ hc
    rw [List.mem_reverse] at hc2
    exact h c (mem_of_mem_dropWhile _ _ _ hc2)
  unfold pyInt10
  cases he : ((s.data.dropWhile isPyWs).reverse.dropWhile isPyWs).reverse with
  | nil => rfl
  | cons c rest =>
      have hrest : ∀ c' ∈ rest, c'.isDigit = false := by
        intro c' hc'
        exact hsub c' (he ▸ List.mem_cons_of_mem c hc')
      have hc : c.isDigit = false := hsub c (he ▸ List.mem_cons_self c rest)
      by_cases h1 : c = '+'
      · simp [h1, digitsStart_none rest hrest]
      · by_cases h2 : c = '-'
        · simp [h1, h2, digitsStart_none rest hrest]
        · simp [h1, h2, digitsStart, hc]

theorem isDigit_not_pyWs (c : Char) (hc : c.isDigit = true) : isPyWs c = false := by
  cases hpw : isPyWs c
  · rfl
  · simp only [isPyWs, decide_eq_true_eq] at hpw
    rcases hpw with h | h | h | h | h | h <;> subst h <;>
      exact absurd hc (by decide)

theorem dropWhile_isPyWs_of_digits (l : List Char)
    (h : ∀ c ∈ l, c.isDigit = true) : l.dropWhile isPyWs = l := by
  cases l with
  | nil => rfl
  | cons c rest =>
      have hc : c.isDigit = true := h c (List.mem_cons_self c rest)
      simp [List.dropWhile, isDigit_not_pyWs c hc]

theorem pyInt10_all_digits (s : String) (hne : s.data ≠ [])
    (h : ∀ c ∈ s.data, c.isDigit = true) :
    ∃ n : Nat, pyInt10 s = some (Int.ofNat n) := by
  have hrev : ∀ c ∈ s.data.reverse, c.isDigit = true := by
    intro c hc
    exact h c (List.mem_reverse.mp hc)
  unfold pyInt10
  rw [dropWhile_isPyWs_of_digits _ h, dropWhile_isPyWs_of_digits _ hrev,
    List.reverse_reverse]
  cases he : s.data with
  | nil => exact absurd he hne
  | cons c rest =>
      have hc : c.isDigit = true := h c (he ▸ List.mem_cons_self c rest)
      have h1 : c ≠ '+' := by
        intro hp
        subst hp
        exact absurd hc (by decide)
      have h2 : c ≠ '-' := by
        intro hp
        subst hp
        exact absurd hc (by decide)
      obtain ⟨n, hn⟩ := digitsRun_all_digits rest
        (fun c' hc' => h c' (he ▸ List.mem_cons_of_mem c hc')) (c.toNat - 48)
      exact ⟨n, by simp [h1, h2, digitsStart, hc, hn]⟩

/-- A decimal digit is in particular a hexadecimal digit. -/
theorem isHexChar_of_isDigit (c : Char) (h : c.isDigit = true) :
    isHexChar c = true := by
  simp [isHexChar, h]

/-- C5 (counterexample): the claim "a string whose length is not 4 fails" is
refuted by the 3-character flags string `"123"`: the parser uses `int(flags,
10)` with no length check, so it succeeds and attaches decoded flags. -/
theorem C5_counterexample :
    ("123" : String).length ≠ 4 ∧
    parseState [("flags", JVal.vstr "123")] =
      .ok [("flags", JVal.vstr "123"),
           ("attributes", JVal.vflags (parseFlags 123))] := by
  constructor
  · decide
  · rfl

/-- C5 (amended): the non-sentinel flags string is parsed with `int(flags, 10)`
and fails with `ValueError` exactly when it is not a base-10 integer literal;
in particular a string of exactly 4 non-hexadecimal characters fails (it
contains no decimal digit), but a length different from 4 does not by itself
fail: any nonempty all-decimal-digit string is accepted whatever its length. -/
theorem C5_flags_decode_errors (s t : String)
    (hs4 : s.length = 4) (hshex : ∀ c ∈ s.data, isHexChar c = false)
    (ht : t.data ≠ []) (htd : ∀ c ∈ t.data, c.isDigit = true) :
    parseState [("flags", JVal.vstr s)] = .error .valueError ∧
    ∃ st', parseState [("flags", JVal.vstr t)] = .ok st' := by
  constructor
  · have hsm : s ≠ "-" := by
      intro he
      rw [he] at hs4
      exact absurd hs4 (by decide)
    have hnod : ∀ c ∈ s.data, c.isDigit = false := by
      intro c hc
      cases hd : c.isDigit
      · rfl
      · have := isHexChar_of_isDigit c hd
        rw [hshex c hc] at this
        exact absurd this (by decide)
    have hnone := pyInt10_none_of_no_digit s hnod
    simp [parseState, alGet, hsm, hnone]
  · have htm : t ≠ "-" := by
      intro he
      subst he
      have := htd '-' (by decide)
      exact absurd this (by decide)
    obtain ⟨n, hn⟩ := pyInt10_all_digits t ht htd
    refine ⟨alSet [("flags", JVal.vstr t)] "attributes"
      (.vflags (parseFlags (Int.ofNat n))), ?_⟩
    simp [parseState, alGet, htm, hn]

/-- Witness for C5 at the concrete inputs `"zzzz"` (4 non-hex characters,
fails) and `"123"` (length 3, succeeds). -/
theorem C5_flags_decode_errors_witness :
    parseState [("flags", JVal.vstr "zzzz")] = .error .valueError ∧
    ∃ st', parseState [("flags", JVal.vstr "123")] = .ok st' :=
  C5_flags_decode_errors "zzzz" "123" (by decide) (by decide) (by decide)
    (by decide)

/-- C6 (confirmed): when the flags field is the sentinel `"-"`, `_parse_state`
returns the state unchanged: no `attributes` entry is attached, so the result
carries an explicitly absent flags record rather than an all-false one. -/
theorem C6_sentinel_flags (st : AList JVal)
    (hf : alGet st "flags" = some (.vstr "-"))
    (ha : alGet st "attributes" = none) :
    parseState st = .ok st ∧
    ∀ st', parseState st = .ok st' → alGet st' "attributes" = none := by
  have hok : parseState st = .ok st := by
    simp [parseState, hf]
  refine ⟨hok, fun st' h => ?_⟩
  rw [hok] at h
  cases h
  exact ha

/-- Witness for C6 at the concrete sentinel state `{"flags": "-"}`. -/
theorem C6_sentinel_flags_witness :
    parseState [("flags", JVal.vstr "-")] = .ok [("flags", JVal.vstr "-")] ∧
    ∀ st', parseState [("flags", JVal.vstr "-")] = .ok st' →
      alGet st' "attributes" = none :=
  C6_sentinel_flags [("flags", JVal.vstr "-")] (by decide) (by decide)

/-! ## Poll/UDP reconciliation (`async_update_data`, selve-2/__init__.py 65-97)

The dict-based store of the integration: a device record carries its `type`
string and (when present) a `state` value that is either a dict of fields or a
plain string (Iveo receivers). -/

/-- The `state` entry of a stored device record: a field dict for Commeo
devices, a plain string for Iveo receivers. -/
inductive StateVal where
  | dict : AList JVal → StateVal
  | str : String → StateVal
deriving DecidableEq, Repr

/-- A stored device record, keeping the fields the reconciler inspects. -/
structure UDevice where
  type : String
  state : Option StateVal
deriving DecidableEq, Repr

/-- One entry of the recency ledger `store["udp_last"]`:
`{"state": udp_state, "ts": monotonic()}`. -/
structure UdpEntry where
  state : AList JVal
  ts : Int
deriving DecidableEq, Repr

/-- One `_LOGGER.warning("Selve API mismatch for %s.%s: poll=%s udp=%s", ...)`
diagnostic. -/
structure MismatchWarn where
  sid : String
  key : String
  api : Option JVal
  udp : JVal
deriving DecidableEq, Repr

/-- Inner loop of `async_update_data`: for each `(k, udp_val)` of the recorded
UDP state, compare with the poll value `dev["state"].get(k)`; on a difference,
overwrite with the UDP value when `now - ts <= 20`, otherwise keep the poll
value and emit a mismatch warning `(k, api_val, udp_val)`. -/
def reconcileFields (now ts : Int) :
    AList JVal → List (String × JVal) →
      AList JVal × List (String × Option JVal × JVal)
  | st, [] => (st, [])
  | st, (k, v) :: rest =>
      let api := alGet st k
      if api ≠ some v then
        if now - ts ≤ 20 then reconcileFields now ts (alSet st k v) rest
        else
          let r := reconcileFields now ts st rest
          (r.1, (k, api, v) :: r.2)
      else reconcileFields now ts st rest

/-- Per-device step of `async_update_data`: devices without a dict-valued
`state`, or without a recency-ledger entry, are left untouched. -/
def reconcileDevice (now : Int) (udpLast : AList UdpEntry) (sid : String)
    (dev : UDevice) : UDevice × List MismatchWarn :=
  match dev.state with
  | some (.dict d) =>
      match alGet udpLast sid with
      | some e =>
          let r := reconcileFields now e.ts d e.state
          ({ dev with state := some (.dict r.1) },
            r.2.map (fun w => { sid := sid, key := w.1, api := w.2.1, udp := w.2.2 }))
      | none => (dev, [])
  | _ => (dev, [])

/-- `async_update_data`'s reconciliation pass over the fresh poll snapshot,
collecting the mismatch warnings it logs. -/
def reconcileSnapshot (now : Int) (udpLast : AList UdpEntry) :
    AList UDevice → AList UDevice × List MismatchWarn
  | [] => ([], [])
  | (sid, dev) :: rest =>
      let rd := reconcileDevice now udpLast sid dev
      let rr := reconcileSnapshot now udpLast rest
      ((sid, rd.1) :: rr.1, rd.2 ++ rr.2)

theorem alKeys_cons {α : Type} (k : String) (v : α) (l : AList α) :
    alKeys ((k, v) :: l) = k :: alKeys l := rfl

theorem reconcileFields_recent_no_warn (now ts : Int) (h : now - ts ≤ 20)
    (l : List (String × JVal)) :
    ∀ st : AList JVal, (reconcileFields now ts st l).2 = [] := by
  induction l with
  | nil => intro st; rfl
  | cons kv rest ih =>
      intro st
      obtain ⟨k, v⟩ := kv
      by_cases hd : alGet st k = some v <;>
        simp [reconcileFields, hd, h, ih]

theorem reconcileFields_not_mem_key (now ts : Int) (l : List (String × JVal))
    (k : String) (hk : k ∉ alKeys l) :
    ∀ st : AList JVal, alGet (reconcileFields now ts st l).1 k = alGet st k := by
  induction l with
  | nil => intro st; rfl
  | cons kv rest ih =>
      intro st
      obtain ⟨k', v'⟩ := kv
      rw [alKeys_cons] at hk
      have hk' : k' ≠ k := fun he => hk (by simp [he])
      have hkrest : k ∉ alKeys rest := fun hm => hk (List.mem_cons_of_mem _ hm)
      by_cases hd : alGet st k' = some v'
      · simpa [reconcileFields, hd] using ih hkrest st
      · by_cases ht : now - ts ≤ 20
        · have := ih hkrest (alSet st k' v')
          simpa [reconcileFields, hd, ht,
            alGet_alSet_ne st k' k v' hk'] using this
        · simpa [reconcileFields, hd, ht] using ih hkrest st

theorem reconcileFields_recent_get (now ts : Int) (h : now - ts ≤ 20)
    (l : List (String × JVal)) (k : String) (v : JVal) :
    ∀ st : AList JVal, (alKeys l).Nodup → (k, v) ∈ l →
      alGet (reconcileFields now ts st l).1 k = some v := by
  induction l with
  | nil => intro st _ hm; simp at hm
  | cons kv rest ih =>
      intro st hnod hm
      obtain ⟨k', v'⟩ := kv
      rw [alKeys_cons] at hnod
      obtain ⟨hknotin, hnod'⟩ := List.nodup_cons.mp hnod
      rcases List.mem_cons.mp hm with he | hmr
      · injection he with he1 he2
        subst he1
        subst he2
        by_cases hd : alGet st k = some v
        · have hrw : reconcileFields now ts st ((k, v) :: rest) =
              reconcileFields now ts st rest := by
            simp [reconcileFields, hd]
          rw [hrw]
          exact (reconcileFields_not_mem_key now ts rest k hknotin st).trans hd
        · have hrw : reconcileFields now ts st ((k, v) :: rest) =
              reconcileFields now ts (alSet st k v) rest := by
            simp [reconcileFields, hd, h]
          rw [hrw]
          exact (reconcileFields_not_mem_key now ts rest k hknotin _).trans
            (alGet_alSet_self st k v)
      · have hkmem : k ∈ alKeys rest := by
          simp only [alKeys, List.mem_map]
          exact ⟨(k, v), hmr, rfl⟩
        have hk' : k' ≠ k := fun he => hknotin (he ▸ hkmem)
        by_cases hd : alGet st k' = some v'
        · simpa [reconcileFields, hd] using ih st hnod' hmr
        · simpa [reconcileFields, hd, h] using ih (alSet st k' v') hnod' hmr

theorem reconcileFields_stale_state (now ts : Int) (h : ¬ now - ts ≤ 20)
    (l : List (String × JVal)) :
    ∀ st : AList JVal, (reconcileFields now ts st l).1 = st := by
  induction l with
  | nil => intro st; rfl
  | cons kv rest ih =>
      intro st
      obtain ⟨k, v⟩ := kv
      by_cases hd : alGet st k = some v <;>
        simp [reconcileFields, hd, h, ih]

theorem reconcileFields_stale_warn (now ts : Int) (h : ¬ now - ts ≤ 20)
    (l : List (String × JVal)) (k : String) (v : JVal) :
    ∀ st : AList JVal, (k, v) ∈ l → alGet st k ≠ some v →
      (k, alGet st k, v) ∈ (reconcileFields now ts st l).2 := by
  induction l with
  | nil => intro st hm; simp at hm
  | cons kv rest ih =>
      intro st hm hdiff
      obtain ⟨k', v'⟩ := kv
      rcases List.mem_cons.mp hm with he | hmr
      · injection he with he1 he2
        subst he1
        subst he2
        simp [reconcileFields, hdiff, h]
      · by_cases hd : alGet st k' = some v'
        · simpa [reconcileFields, hd] using ih st hmr hdiff
        · simp only [reconcileFields, hd, h]
          simp only [ne_eq, hd, not_false_eq_true, if_true, if_neg h]
          exact List.mem_cons_of_mem _ (ih st hmr hdiff)

theorem alGet_mem {α : Type} (l : AList α) (k : String) (v : α)
    (h : alGet l k = some v) : (k, v) ∈ l := by
  induction l with
  | nil => simp [alGet] at h
  | cons hd rest ih =>
      obtain ⟨k1, v1⟩ := hd
      by_cases he : k1 = k
      · subst he
        rw [alGet, if_pos rfl] at h
        injection h with h
        subst h
        exact List.mem_cons_self _ _
      · rw [alGet, if_neg he] at h
        exact List.mem_cons_of_mem _ (ih h)

theorem mem_eq_of_alGet_nodup {α : Type} (l : AList α) (k : String) (v v' : α)
    (hnod : (alKeys l).Nodup) (hm : (k, v') ∈ l) (hg : alGet l k = some v) :
    v' = v := by
  induction l with
  | nil => simp at hm
  | cons hd rest ih =>
      obtain ⟨k1, v1⟩ := hd
      rw [alKeys_cons] at hnod
      obtain ⟨hnotin, hnod'⟩ := List.nodup_cons.mp hnod
      rcases List.mem_cons.mp hm with he | hmr
      · injection he with h1 h2
        subst h1
        subst h2
        rw [alGet, if_pos rfl] at hg
        exact Option.some.inj hg
      · have hk1 : k1 ≠ k := by
          intro he
          subst he
          exact hnotin (by simp only [alKeys, List.mem_map]; exact ⟨(k1, v'), hmr, rfl⟩)
        rw [alGet, if_neg hk1] at hg
        exact ih hnod' hmr hg

theorem reconcileSnapshot_lookup (now : Int) (ul : AList UdpEntry)
    (snap : AList UDevice) (sid : String) (dev : UDevice)
    (h : alGet snap sid = some dev) :
    alGet (reconcileSnapshot now ul snap).1 sid =
      some (reconcileDevice now ul sid dev).1 := by
  induction snap with
  | nil => simp [alGet] at h
  | cons hd rest ih =>
      obtain ⟨sid', dev'⟩ := hd
      by_cases he : sid' = sid
      · subst he
        rw [alGet, if_pos rfl] at h
        injection h with h
        subst h
        simp [reconcileSnapshot, alGet]
      · rw [alGet, if_neg he] at h
        simpa [reconcileSnapshot, alGet, he] using ih h

theorem reconcileDevice_warn_sid (now : Int) (ul : AList UdpEntry)
    (sid : String) (dev : UDevice) (w : MismatchWarn)
    (hw : w ∈ (reconcileDevice now ul sid dev).2) : w.sid = sid := by
  unfold reconcileDevice at hw
  cases hds : dev.state with
  | none => rw [hds] at hw; simp at hw
  | some sv =>
      rw [hds] at hw
      cases sv with
      | str s => simp at hw
      | dict d =>
          cases hul : alGet ul sid with
          | none => rw [hul] at hw; simp at hw
          | some e =>
              rw [hul] at hw
              simp only [List.mem_map] at hw
              obtain ⟨t, _, hwt⟩ := hw
              rw [← hwt]

theorem reconcileSnapshot_warn_src (now : Int) (ul : AList UdpEntry)
    (snap : AList UDevice) (w : MismatchWarn)
    (hw : w ∈ (reconcileSnapshot now ul snap).2) :
    ∃ sd : String × UDevice, sd ∈ snap ∧
      w ∈ (reconcileDevice now ul sd.1 sd.2).2 := by
  induction snap with
  | nil => simp [reconcileSnapshot] at hw
  | cons hd rest ih =>
      obtain ⟨sid', dev'⟩ := hd
      simp only [reconcileSnapshot] at hw
      rcases List.mem_append.mp hw with h1 | h2
      · exact ⟨(sid', dev'), List.mem_cons_self _ _, h1⟩
      · obtain ⟨sd, hm, hw2⟩ := ih h2
        exact ⟨sd, List.mem_cons_of_mem _ hm, hw2⟩

theorem reconcileSnapshot_warn_mem (now : Int) (ul : AList UdpEntry)
    (snap : AList UDevice) (sid : String) (dev : UDevice) (w : MismatchWarn)
    (hm : (sid, dev) ∈ snap) (hw : w ∈ (reconcileDevice now ul sid dev).2) :
    w ∈ (reconcileSnapshot now ul snap).2 := by
  induction snap with
  | nil => simp at hm
  | cons hd rest ih =>
      obtain ⟨sid', dev'⟩ := hd
      simp only [reconcileSnapshot]
      rcases List.mem_cons.mp hm with he | hmr
      · injection he with h1 h2
        subst h1
        subst h2
        exact List.mem_append.mpr (Or.inl hw)
      · exact List.mem_append.mpr (Or.inr (ih hmr))

/-- C2 (confirmed): on a poll refresh, for a device of the snapshot carrying a
field dict and a recorded UDP delta, every field whose poll value differs from
the recorded UDP value is reconciled as follows: when the delta's age
`now - ts` is at most 20 seconds the UDP value wins and no mismatch warning
mentions the device; when it exceeds 20 seconds the poll state is kept
verbatim and a mismatch warning for that field is emitted. -/
theorem C2_poll_udp_reconciliation
    (now : Int) (udpLast : AList UdpEntry) (snap : AList UDevice)
    (sid k : String) (dev : UDevice) (d : AList JVal) (e : UdpEntry) (v : JVal)
    (hnods : (alKeys snap).Nodup)
    (hsnap : alGet snap sid = some dev)
    (hstate : dev.state = some (.dict d))
    (hentry : alGet udpLast sid = some e)
    (hnodk : (alKeys e.state).Nodup)
    (hk : (k, v) ∈ e.state)
    (hdiff : alGet d k ≠ some v) :
    (now - e.ts ≤ 20 →
      (∃ d', alGet (reconcileSnapshot now udpLast snap).1 sid =
          some { dev with state := some (.dict d') } ∧ alGet d' k = some v) ∧
      ∀ w ∈ (reconcileSnapshot now udpLast snap).2, w.sid ≠ sid) ∧
    (¬ now - e.ts ≤ 20 →
      alGet (reconcileSnapshot now udpLast snap).1 sid = some dev ∧
      { sid := sid, key := k, api := alGet d k, udp := v } ∈
        (reconcileSnapshot now udpLast snap).2) := by
  have hlk := reconcileSnapshot_lookup now udpLast snap sid dev hsnap
  have hrd : reconcileDevice now udpLast sid dev =
      ({ dev with state := some (.dict (reconcileFields now e.ts d e.state).1) },
        (reconcileFields now e.ts d e.state).2.map
          (fun w => { sid := sid, key := w.1, api := w.2.1, udp := w.2.2 })) := by
    unfold reconcileDevice
    rw [hstate, hentry]
  constructor
  · intro h20
    constructor
    · refine ⟨(reconcileFields now e.ts d e.state).1, ?_, ?_⟩
      · rw [hlk, hrd]
      · exact reconcileFields_recent_get now e.ts h20 e.state k v d hnodk hk
    · intro w hw heq
      obtain ⟨sd, hmem, hwd⟩ := reconcileSnapshot_warn_src now udpLast snap w hw
      have hsid' : w.sid = sd.1 := reconcileDevice_warn_sid now udpLast sd.1 sd.2 w hwd
      have hsd1 : sd.1 = sid := by rw [← hsid', heq]
      have hdev' : sd.2 = dev := by
        apply mem_eq_of_alGet_nodup snap sid dev sd.2 hnods ?_ hsnap
        rw [← hsd1]
        exact hmem
      rw [hsd1, hdev', hrd] at hwd
      rw [reconcileFields_recent_no_warn now e.ts h20 e.state d] at hwd
      simp at hwd
  · intro hst
    have hF1 : (reconcileFields now e.ts d e.state).1 = d :=
      reconcileFields_stale_state now e.ts hst e.state d
    have hdev_eq : { dev with state := some (.dict d) } = dev := by
      cases dev with
      | mk t s =>
          simp only at hstate
          rw [hstate]
    constructor
    · rw [hlk, hrd, hF1, hdev_eq]
    · have hwmem := reconcileFields_stale_warn now e.ts hst e.state k v d hk hdiff
      have hmap : ({ sid := sid, key := k, api := alGet d k, udp := v } :
          MismatchWarn) ∈ (reconcileFields now e.ts d e.state).2.map
            (fun w => ({ sid := sid, key := w.1, api := w.2.1, udp := w.2.2 } :
              MismatchWarn)) :=
        List.mem_map_of_mem _ hwmem
      apply reconcileSnapshot_warn_mem now udpLast snap sid dev _
        (alGet_mem snap sid dev hsnap)
      rw [hrd]
      exact hmap

/-- Witness for C2: a device `"01"` whose poll position is 7 while a UDP delta
recorded at `ts = 0` says 5; at `now = 10` (age 10 s) the UDP value 5 wins with
no warning, and at `now = 30` (age 30 s) the poll value 7 is kept and a
mismatch warning is emitted. -/
theorem C2_poll_udp_reconciliation_witness :
    ((∃ d', alGet (reconcileSnapshot 10
        [("01", { state := [("position", JVal.vint 5)], ts := 0 })]
        [("01", { type := "CM",
                  state := some (.dict [("position", JVal.vint 7)]) })]).1 "01" =
          some { type := "CM", state := some (.dict d') } ∧
        alGet d' "position" = some (JVal.vint 5)) ∧
      ∀ w ∈ (reconcileSnapshot 10
        [("01", { state := [("position", JVal.vint 5)], ts := 0 })]
        [("01", { type := "CM",
                  state := some (.dict [("position", JVal.vint 7)]) })]).2,
        w.sid ≠ "01") ∧
    (alGet (reconcileSnapshot 30
        [("01", { state := [("position", JVal.vint 5)], ts := 0 })]
        [("01", { type := "CM",
                  state := some (.dict [("position", JVal.vint 7)]) })]).1 "01" =
      some { type := "CM", state := some (.dict [("position", JVal.vint 7)]) } ∧
      { sid := "01", key := "position",
        api := alGet [("position", JVal.vint 7)] "position",
        udp := JVal.vint 5 } ∈ (reconcileSnapshot 30
        [("01", { state := [("position", JVal.vint 5)], ts := 0 })]
        [("01", { type := "CM",
                  state := some (.dict [("position", JVal.vint 7)]) })]).2) :=
  ⟨(C2_poll_udp_reconciliation 10
      [("01", { state := [("position", JVal.vint 5)], ts := 0 })]
      [("01", { type := "CM",
                state := some (.dict [("position", JVal.vint 7)]) })]
      "01" "position"
      { type := "CM", state := some (.dict [("position", JVal.vint 7)]) }
      [("position", JVal.vint 7)]
      { state := [("position", JVal.vint 5)], ts := 0 } (JVal.vint 5)
      (by decide) (by decide) (by decide) (by decide) (by decide) (by decide)
      (by decide)).1 (by decide),
   (C2_poll_udp_reconciliation 30
      [("01", { state := [("position", JVal.vint 5)], ts := 0 })]
      [("01", { type := "CM",
                state := some (.dict [("position", JVal.vint 7)]) })]
      "01" "position"
      { type := "CM", state := some (.dict [("position", JVal.vint 7)]) }
      [("position", JVal.vint 7)]
      { state := [("position", JVal.vint 5)], ts := 0 } (JVal.vint 5)
      (by decide) (by decide) (by decide) (by decide) (by decide) (by decide)
      (by decide)).2 (by decide)⟩

/-! ## `SeleveHomeServer.__init__` / `request` (server.py 411-422) -/

/-- `p` leads `l`: character-by-character comparison of a leading run,
modelling Python `str.startswith`. -/
def charsLead : List Char → List Char → Bool
  | [], _ => true
  | _ :: _, [] => false
  | p :: ps, c :: cs => p = c && charsLead ps cs

/-- Python `host.startswith(pat)`. -/
def pyStartsWith (s pat : String) : Bool := charsLead pat.data s.data

/-- The HTTP client: host (normalized at construction) and shared secret. -/
structure SeleveHomeServer where
  host : String
  password : String
deriving DecidableEq, Repr

/-- `SeleveHomeServer.__init__`: prepend `"http://"` unless the host already
starts with an explicit `"https://"` or `"http://"` scheme. -/
def SeleveHomeServer.init (host password : String) : SeleveHomeServer :=
  if pyStartsWith host "https://" || pyStartsWith host "http://" then
    { host := host, password := password }
  else
    { host := "http://" ++ host, password := password }

/-- `SeleveHomeServer.request`: the URL of every request is
`f"{self.host}{path}"` followed by `f"?auth={self.password}"`. -/
def SeleveHomeServer.requestUrl (s : SeleveHomeServer) (path : String) : String :=
  s.host ++ path ++ ("?auth=" ++ s.password)

/-- C10 (confirmed): the constructor normalizes the host: without a scheme
prefix the host becomes `"http://" ++ host`, with one it is kept unchanged; in
both cases every request URL is the normalized host, then the path, then the
`auth` query parameter. -/
theorem C10_host_normalization (host password path : String) :
    (¬ (pyStartsWith host "https://" = true ∨ pyStartsWith host "http://" = true) →
      (SeleveHomeServer.init host password).host = "http://" ++ host ∧
      (SeleveHomeServer.init host password).requestUrl path =
        "http://" ++ host ++ path ++ "?auth=" ++ password) ∧
    ((pyStartsWith host "https://" = true ∨ pyStartsWith host "http://" = true) →
      (SeleveHomeServer.init host password).host = host ∧
      (SeleveHomeServer.init host password).requestUrl path =
        host ++ path ++ "?auth=" ++ password) := by
  constructor
  · intro h
    have hb : (pyStartsWith host "https://" || pyStartsWith host "http://") = false := by
      rcases h1 : pyStartsWith host "https://" <;>
        rcases h2 : pyStartsWith host "http://" <;>
        simp_all
    constructor
    · simp [SeleveHomeServer.init, hb]
    · simp [SeleveHomeServer.init, SeleveHomeServer.requestUrl, hb,
        String.append_assoc]
  · intro h
    have hb : (pyStartsWith host "https://" || pyStartsWith host "http://") = true := by
      rcases h with h | h <;> simp [h]
    constructor
    · simp [SeleveHomeServer.init, hb]
    · simp [SeleveHomeServer.init, SeleveHomeServer.requestUrl, hb,
        String.append_assoc]

/-- Witness for C10 at the bare host `"gw.local"` (scheme prepended) and at
`"http://gw.local"` (kept unchanged). -/
theorem C10_host_normalization_witness :
    ((SeleveHomeServer.init "gw.local" "pw").host = "http://gw.local" ∧
      (SeleveHomeServer.init "gw.local" "pw").requestUrl "/info" =
        "http://gw.local" ++ "/info" ++ "?auth=" ++ "pw") ∧
    ((SeleveHomeServer.init "http://gw.local" "pw").host = "http://gw.local" ∧
      (SeleveHomeServer.init "http://gw.local" "pw").requestUrl "/info" =
        "http://gw.local" ++ "/info" ++ "?auth=" ++ "pw") :=
  ⟨by
    have h := (C10_host_normalization "gw.local" "pw" "/info").1 (by decide)
    exact ⟨h.1, h.2⟩,
   by
    have h := (C10_host_normalization "http://gw.local" "pw" "/info").2 (by decide)
    exact ⟨h.1, h.2⟩⟩

/-! ## Base64 and UTF-8 (used by `DeviceGroupState.from_response`,
server.py 365-386) -/

/-- 6-bit value of a base64 alphabet character, `none` outside the alphabet. -/
def b64value (c : Char) : Option Nat :=
  if 'A' ≤ c ∧ c ≤ 'Z' then some (c.toNat - 65)
  else if 'a' ≤ c ∧ c ≤ 'z' then some (c.toNat - 97 + 26)
  else if '0' ≤ c ∧ c ≤ '9' then some (c.toNat - 48 + 52)
  else if c = '+' then some 62
  else if c = '/' then some 63
  else none

/-- Reassemble bytes from 6-bit values: full quads give 3 bytes, a trailing
pair gives 1 byte and a trailing triple 2 bytes. -/
def b64quads : List Nat → List Nat
  | a :: b :: c :: d :: rest =>
      (a * 4 + b / 16) :: ((b % 16) * 16 + c / 4) :: ((c % 4) * 64 + d) ::
        b64quads rest
  | [a, b] => [a * 4 + b / 16]
  | [a, b, c] => [a * 4 + b / 16, (b % 16) * 16 + c / 4]
  | _ => []

/-- Models Python `base64.b64decode` in its default lenient mode: characters
outside the base64 alphabet are discarded, `=` characters count as padding,
and decoding fails with `binascii.Error` (`none`) when the data characters
cannot be grouped into quads with the available padding (incorrect padding);
`4k+1` data characters always fail. -/
def b64decode (s : String) : Option (List Nat) :=
  let data := s.data.filterMap b64value
  let pads := (s.data.filter (fun c => c = '=')).length
  let r := data.length % 4
  if r = 1 then none
  else if r = 0 then some (b64quads data)
  else if 4 - r ≤ pads then some (b64quads data)
  else none

/-- The U+FFFD replacement character. -/
def replChar : Char := Char.ofNat 65533

/-- Whether a byte is a UTF-8 continuation byte `0x80..0xBF`. -/
def isCont (b : Nat) : Bool := 128 ≤ b ∧ b < 192

/-- Valid ranges of the first continuation byte given the leading byte
(excluding overlong encodings and surrogates, which Python rejects). -/
def validB2 (b b2 : Nat) : Bool :=
  if b = 224 then 160 ≤ b2 ∧ b2 < 192
  else if b = 237 then 128 ≤ b2 ∧ b2 < 160
  else if b = 240 then 144 ≤ b2 ∧ b2 < 192
  else if b = 244 then 128 ≤ b2 ∧ b2 < 144
  else isCont b2

/-- UTF-8 decoding with replacement, on `fuel` ≥ the number of bytes (each
step consumes at least one byte, so `utf8Decode` below never exhausts it):
well-formed sequences decode to their code points; ill-formed input yields one
U+FFFD per maximal invalid subpart and decoding resumes after it. -/
def utf8DecodeAux : Nat → List Nat → List Char
  | 0, _ => []
  | _ + 1, [] => []
  | fuel + 1, b :: rest =>
      if b < 128 then Char.ofNat b :: utf8DecodeAux fuel rest
      else if 194 ≤ b ∧ b < 224 then
        match rest with
        | b2 :: rest2 =>
            if isCont b2 then
              Char.ofNat ((b - 192) * 64 + (b2 - 128)) :: utf8DecodeAux fuel rest2
            else replChar :: utf8DecodeAux fuel rest
        | [] => [replChar]
      else if 224 ≤ b ∧ b < 240 then
        match rest with
        | b2 :: rest2 =>
            if validB2 b b2 then
              match rest2 with
              | b3 :: rest3 =>
                  if isCont b3 then
                    Char.ofNat ((b - 224) * 4096 + (b2 - 128) * 64 + (b3 - 128)) ::
                      utf8DecodeAux fuel rest3
                  else replChar :: utf8DecodeAux fuel rest2
              | [] => [replChar]
            else replChar :: utf8DecodeAux fuel rest
        | [] => [replChar]
      else if 240 ≤ b ∧ b < 245 then
        match rest with
        | b2 :: rest2 =>
            if validB2 b b2 then
              match rest2 with
              | b3 :: rest3 =>
                  if isCont b3 then
                    match rest3 with
                    | b4 :: rest4 =>
                        if isCont b4 then
                          Char.ofNat ((b - 240) * 262144 + (b2 - 128) * 4096 +
                            (b3 - 128) * 64 + (b4 - 128)) :: utf8DecodeAux fuel rest4
                        else replChar :: utf8DecodeAux fuel rest3
                    | [] => [replChar]
                  else replChar :: utf8DecodeAux fuel rest2
              | [] => [replChar]
            else replChar :: utf8DecodeAux fuel rest
        | [] => [replChar]
      else replChar :: utf8DecodeAux fuel rest

/-- `bytes.decode("utf-8", errors="replace")`. -/
def utf8Decode (l : List Nat) : List Char := utf8DecodeAux l.length l

/-! ## `DeviceGroupState.from_response` (server.py 351-386) -/

/-- Group member kind (`DeviceGroupdDeviceType`): 1 switch, 2 motor. -/
inductive DeviceGroupdDeviceType where
  | SWITCH : DeviceGroupdDeviceType
  | MOTOR : DeviceGroupdDeviceType
deriving DecidableEq, Repr

/-- `DeviceGroupdDeviceType.parse_data`: `int(...)` then the enum constructor;
any failure is caught and turned into `None`. -/
def parseGroupDeviceType (s : String) : Option DeviceGroupdDeviceType :=
  match pyInt10 s with
  | none => none
  | some n =>
      if n = 1 then some .SWITCH
      else if n = 2 then some .MOTOR
      else none

/-- A raw `SGROUP` wire record with the keys the decoder touches (the model
covers records carrying the `name`, `sid`, `adr`, `sys` keys and a string or
absent `deviceType`; an absent `deviceType` key makes the dataclass
constructor raise `TypeError`). -/
structure RawGroupRecord where
  type : String
  name : String
  sid : String
  adr : String
  deviceType : Option String
  sys : String
deriving DecidableEq, Repr

/-- The decoded group record. -/
structure DeviceGroupState where
  name : String
  sid : String
  adr : String
  deviceType : Option DeviceGroupdDeviceType
  sys : String
deriving DecidableEq, Repr

/-- `DeviceGroupState.from_response`: reject a record whose `type` is not
`"SGROUP"`; parse `deviceType`; then, when the name is non-empty, try to
base64-decode it into UTF-8 text — on failure the exception is logged and the
name is left as the raw undecoded value. -/
def DeviceGroupState.fromResponse (r : RawGroupRecord) :
    Except DecodeErr DeviceGroupState :=
  if r.type ≠ "SGROUP" then .error .valueError
  else
    match r.deviceType with
    | none => .error .typeError
    | some dts =>
        let nm :=
          if r.name ≠ "" then
            match b64decode r.name with
            | some bytes => String.mk (utf8Decode bytes)
            | none => r.name
          else r.name
        .ok { name := nm, sid := r.sid, adr := r.adr,
              deviceType := parseGroupDeviceType dts, sys := r.sys }

/-- C8 (counterexample): a group whose base64 name fails to decode (`"a"` is a
single data character, an incorrect-padding error) keeps the raw name `"a"` —
not the empty value the claim describes. -/
theorem C8_counterexample :
    DeviceGroupState.fromResponse
        { type := "SGROUP", name := "a", sid := "05", adr := "02",
          deviceType := some "2", sys := "CM" } =
      .ok { name := "a", sid := "05", adr := "02",
            deviceType := some .MOTOR, sys := "CM" } ∧
    ("a" : String) ≠ "" := by
  constructor
  · rfl
  · decide

/-- C8 (amended): decoding an `SGROUP` record never raises on a bad name: with
a nonempty name the record decodes with `name` equal to the UTF-8 text of the
base64 payload when base64 decoding succeeds, and to the raw undecoded value
(not the empty value) when it fails. -/
theorem C8_group_name_decode (r : RawGroupRecord) (dts : String)
    (htype : r.type = "SGROUP") (hdt : r.deviceType = some dts)
    (hname : r.name ≠ "") :
    DeviceGroupState.fromResponse r =
      .ok { name :=
              match b64decode r.name with
              | some bytes => String.mk (utf8Decode bytes)
              | none => r.name,
            sid := r.sid, adr := r.adr,
            deviceType := parseGroupDeviceType dts, sys := r.sys } := by
  unfold DeviceGroupState.fromResponse
  rw [if_neg (by simp [htype]), hdt]
  simp [hname]

/-- Witness for C8: the valid base64 name `"YWJj"` decodes to the readable
text `"abc"`. -/
theorem C8_group_name_decode_witness :
    DeviceGroupState.fromResponse
        { type := "SGROUP", name := "YWJj", sid := "05", adr := "02",
          deviceType := some "2", sys := "CM" } =
      .ok { name := "abc", sid := "05", adr := "02",
            deviceType := some .MOTOR, sys := "CM" } := by
  have h := C8_group_name_decode
    { type := "SGROUP", name := "YWJj", sid := "05", adr := "02",
      deviceType := some "2", sys := "CM" } "2" rfl rfl (by decide)
  rw [h]
  rfl

/-! ## The UDP delta handler (`_udp_listener`, selve-2/__init__.py 212-278) -/

/-- A parsed UDP message: device id, the `changed` field list when the payload
carries one, and the partial state delta (`j.get("state") or {}`); a missing
or empty sid is modelled as `""`. -/
structure UdpMsg where
  sid : String
  changed : Option (List String)
  state : AList JVal
deriving DecidableEq, Repr

/-- The store as seen by the listener: `coordinator.data` and
`store["udp_last"]`. -/
structure Store where
  data : AList UDevice
  udpLast : AList UdpEntry
deriving DecidableEq, Repr

/-- The 7 tracked fields of the anomaly filter (`all_values`). -/
def allChangedValues : List String :=
  ["overload", "obstacle", "alarm", "position", "current", "target",
   "running_state"]

/-- Python `set(a) == set(b)` on string lists. -/
def sameSet (a b : List String) : Bool :=
  a.all (fun x => b.contains x) && b.all (fun x => a.contains x)

/-- The exact bogus-fingerprint test on the delta values
(`udp_state.get(k, None) == v` for the five keys). -/
def udpFingerprint (udpState : AList JVal) : Bool :=
  alGet udpState "run_state" = some (.vint 0) ∧
  alGet udpState "position" = some (.vint 0) ∧
  alGet udpState "current" = some (.vint 100) ∧
  alGet udpState "target" = some (.vint 100) ∧
  alGet udpState "timeout" = some (.vint 0)

/-- Value of a hexadecimal digit. -/
def hexDigitVal (c : Char) : Nat :=
  if c.isDigit then c.toNat - 48
  else if 'a' ≤ c ∧ c ≤ 'f' then c.toNat - 97 + 10
  else c.toNat - 65 + 10

/-- Value of a big-endian hex digit string. -/
def hexVal (l : List Char) : Nat :=
  l.foldl (fun acc c => acc * 16 + hexDigitVal c) 0

/-- Modelled from the spec: the spec section 4.1 flag bit layout (bit 0
timeout, bit 1 overload, bit 2 obstacle, bit 3 emergency alarm, bit 4 sensor
learned, bit 5 sensor lost stored inverted as `sensor_connected`, bit 6
automatic mode, bit 7 communication timeout, bit 8 wind, bit 9 rain, bit 10
frost), used below for the UDP-path decoder that is absent from the sources. -/
def specFlags (n : Nat) : CommeoFlags :=
  { timeout := bitSet n 0
    overload := bitSet n 1
    obstacle := bitSet n 2
    emergency_alarm := bitSet n 3
    sensor_learned := bitSet n 4
    sensor_connected := !(bitSet n 5)
    automatic_mode := bitSet n 6
    cc_timeout := bitSet n 7
    wind_alarm := bitSet n 8
    rain_alarm := bitSet n 9
    frost_alarm := bitSet n 10 }

/-- Modelled from the spec: `parseCommeoRawFlags` is imported by the
integration from its `server` module, but the module revision defining it is
not among the sources (the bundled `server.py` predates the dict-based
store).  Per spec sections 4.1 and 4.3 it reads the raw `flags` field of a Commeo
state and decodes the 4-hex-character string into the named flag booleans; a
missing field, a non-string value, a wrong length or a non-hex character is a
decode failure (an exception in the Python code). -/
def parseCommeoRawFlags (st : AList JVal) : Except DecodeErr CommeoFlags :=
  match alGet st "flags" with
  | some (.vstr s) =>
      if s.length = 4 ∧ s.data.all isHexChar then .ok (specFlags (hexVal s.data))
      else .error .valueError
  | _ => .error .typeError

/-- The flags-normalization step of `_udp_listener` (lines 260-272): for a
`"CM"` device, try to decode the delta's flags and attach the decoded record
under the `parsed_flags` key; a decode exception is caught and logged, leaving
the delta unchanged. -/
def attachFlags (dev : UDevice) (udpState : AList JVal) : AList JVal :=
  if dev.type = "CM" then
    match parseCommeoRawFlags udpState with
    | .ok f => alSet udpState "parsed_flags" (.vflags f)
    | .error _ => udpState
  else udpState

/-- The anomaly filter of `_udp_listener` (lines 221-258), deciding whether
the delta is dropped: with an effective `changed` list of exactly 7 entries, a
device without a dict-valued state is skipped; with stored `run_state` 0, a
changed-set equal to the 7 tracked fields, and the exact bogus fingerprint,
the delta is discarded as a known gateway glitch. -/
def udpFilterDrops (dev : UDevice) (changed : Option (List String))
    (udpState : AList JVal) : Bool :=
  match changed with
  | none => false
  | some l =>
      if l.length = 7 then
        match dev.state with
        | some (.dict d) =>
            if alGet d "run_state" = some (.vint 0) then
              if sameSet l allChangedValues then udpFingerprint udpState
              else false
            else false
        | _ => true
      else false

/-- One message-handling step of `_udp_listener`, from the parsed message to
the updated store and whether observers were notified
(`coordinator.async_set_updated_data`). -/
def handleUdp (now : Int) (st : Store) (msg : UdpMsg) : Store × Bool :=
  if msg.sid = "" then (st, false)
  else
    match alGet st.data msg.sid with
    | none => (st, false)
    | some dev =>
        let changed : Option (List String) :=
          match msg.changed with
          | some l => if l = [] then none else some l
          | none => none
        if udpFilterDrops dev changed msg.state then (st, false)
        else
          let udpState := attachFlags dev msg.state
          match dev.state with
          | some (.dict d) =>
              ({ data := alSet st.data msg.sid
                   { dev with state := some (.dict (alUpdate d udpState)) },
                 udpLast := alSet st.udpLast msg.sid
                   { state := udpState, ts := now } },
               true)
          | _ => (st, false)

theorem alGet_alUpdate_not_mem {α : Type} (other : AList α) (k : String)
    (hk : k ∉ alKeys other) :
    ∀ d : AList α, alGet (alUpdate d other) k = alGet d k := by
  induction other with
  | nil => intro d; rfl
  | cons kv rest ih =>
      intro d
      obtain ⟨k1, v1⟩ := kv
      rw [alKeys_cons] at hk
      have hk1 : k1 ≠ k := fun he => hk (by simp [he])
      have hkrest : k ∉ alKeys rest := fun hm => hk (List.mem_cons_of_mem _ hm)
      show alGet (alUpdate (alSet d k1 v1) rest) k = alGet d k
      rw [ih hkrest (alSet d k1 v1), alGet_alSet_ne d k1 k v1 hk1]

theorem alGet_alUpdate_mem {α : Type} (other : AList α) (k : String) (v : α)
    (hnod : (alKeys other).Nodup) (hg : alGet other k = some v) :
    ∀ d : AList α, alGet (alUpdate d other) k = some v := by
  induction other with
  | nil => intro d; simp [alGet] at hg
  | cons kv rest ih =>
      intro d
      obtain ⟨k1, v1⟩ := kv
      rw [alKeys_cons] at hnod
      obtain ⟨hnotin, hnod2⟩ := List.nodup_cons.mp hnod
      by_cases he : k1 = k
      · subst he
        rw [alGet, if_pos rfl] at hg
        show alGet (alUpdate (alSet d k1 v1) rest) k1 = some v
        rw [alGet_alUpdate_not_mem rest k1 hnotin (alSet d k1 v1),
          alGet_alSet_self d k1 v1]
        exact hg
      · rw [alGet, if_neg he] at hg
        exact ih hnod2 hg (alSet d k1 v1)

theorem mem_alKeys_alSet {α : Type} (l : AList α) (k k2 : String) (v : α)
    (h : k2 ∈ alKeys (alSet l k v)) : k2 ∈ alKeys l ∨ k2 = k := by
  induction l with
  | nil =>
      rw [alSet, alKeys_cons] at h
      rcases List.mem_cons.mp h with h | h
      · exact Or.inr h
      · simp [alKeys] at h
  | cons kv rest ih =>
      obtain ⟨k1, v1⟩ := kv
      by_cases he : k1 = k
      · subst he
        rw [alSet, if_pos rfl, alKeys_cons] at h
        rcases List.mem_cons.mp h with h | h
        · exact Or.inr h
        · exact Or.inl (List.mem_cons_of_mem _ h)
      · rw [alSet, if_neg he, alKeys_cons] at h
        rcases List.mem_cons.mp h with h | h
        · exact Or.inl (h ▸ List.mem_cons_self _ _)
        · rcases ih h with h2 | h2
          · exact Or.inl (List.mem_cons_of_mem _ h2)
          · exact Or.inr h2

theorem alKeys_alSet_nodup {α : Type} (l : AList α) (k : String) (v : α)
    (hnod : (alKeys l).Nodup) : (alKeys (alSet l k v)).Nodup := by
  induction l with
  | nil => simp [alSet, alKeys]
  | cons kv rest ih =>
      obtain ⟨k1, v1⟩ := kv
      rw [alKeys_cons] at hnod
      obtain ⟨hnotin, hnod2⟩ := List.nodup_cons.mp hnod
      by_cases he : k1 = k
      · subst he
        rw [alSet, if_pos rfl, alKeys_cons]
        exact List.nodup_cons.mpr ⟨hnotin, hnod2⟩
      · rw [alSet, if_neg he, alKeys_cons]
        refine List.nodup_cons.mpr ⟨?_, ih hnod2⟩
        intro hmem
        rcases mem_alKeys_alSet rest k k1 v hmem with h2 | h2
        · exact hnotin h2
        · exact he h2

/-- C3 (confirmed): a UDP delta for a device with a dict-valued stored state
is discarded in its entirety — store, recency ledger and notification all
unchanged — exactly when its changed-field list has the 7 tracked fields, the
stored `run_state` is 0, and the values carry the exact bogus fingerprint
(run_state 0, position 0, current 100, target 100, timeout 0); a delta missing
any of the three conditions is merged normally: the delta (with decoded flags
attached for Commeo devices) is folded into the stored state, the recency
ledger records it with the current time, and observers are notified. -/
theorem C3_anomaly_filter (now : Int) (st : Store) (msg : UdpMsg)
    (dev : UDevice) (d : AList JVal)
    (hsid : msg.sid ≠ "")
    (hdev : alGet st.data msg.sid = some dev)
    (hstate : dev.state = some (.dict d)) :
    ((∃ l, msg.changed = some l ∧ l.length = 7 ∧
        sameSet l allChangedValues = true) →
      alGet d "run_state" = some (.vint 0) →
      udpFingerprint msg.state = true →
      handleUdp now st msg = (st, false)) ∧
    (¬ ((∃ l, msg.changed = some l ∧ l.length = 7 ∧
          sameSet l allChangedValues = true) ∧
        alGet d "run_state" = some (.vint 0) ∧
        udpFingerprint msg.state = true) →
      handleUdp now st msg =
        ({ data := alSet st.data msg.sid
             { dev with state := some (.dict (alUpdate d (attachFlags dev msg.state))) },
           udpLast := alSet st.udpLast msg.sid
             { state := attachFlags dev msg.state, ts := now } }, true)) := by
  constructor
  · rintro ⟨l, hch, h7, hset⟩ hrun hfp
    have hlne : l ≠ [] := by
      intro he
      rw [he] at h7
      exact absurd h7 (by decide)
    have hdrop : udpFilterDrops dev (some l) msg.state = true := by
      simp [udpFilterDrops, h7, hstate, hrun, hset, hfp]
    simp [handleUdp, hsid, hdev, hch, hlne, hdrop]
  · intro hnot
    have hmerge : ∀ ch : Option (List String),
        udpFilterDrops dev ch msg.state = false →
        (if udpFilterDrops dev ch msg.state then (st, false)
         else
           match dev.state with
           | some (.dict d0) =>
               ({ data := alSet st.data msg.sid
                    { dev with state := some (.dict (alUpdate d0 (attachFlags dev msg.state))) },
                  udpLast := alSet st.udpLast msg.sid
                    { state := attachFlags dev msg.state, ts := now } },
                true)
           | _ => (st, false)) =
          ({ data := alSet st.data msg.sid
               { dev with state := some (.dict (alUpdate d (attachFlags dev msg.state))) },
             udpLast := alSet st.udpLast msg.sid
               { state := attachFlags dev msg.state, ts := now } }, true) := by
      intro ch hF
      rw [if_neg (by simp [hF]), hstate]
    cases hch : msg.changed with
    | none =>
        have hdrop : udpFilterDrops dev none msg.state = false := rfl
        simp only [handleUdp, hsid, if_neg (by simp [hsid] : ¬ msg.sid = ""), hdev, hch]
        simp [hdrop, hstate]
    | some l =>
        by_cases hle : l = []
        · subst hle
          have hdrop : udpFilterDrops dev none msg.state = false := rfl
          simp only [handleUdp, hdev, hch]
          simp [hsid, hdrop, hstate]
        · have hdrop : udpFilterDrops dev (some l) msg.state = false := by
            simp only [udpFilterDrops, hstate]
            by_cases h7 : l.length = 7
            · simp only [h7, if_true]
              by_cases hrun : alGet d "run_state" = some (JVal.vint 0)
              · simp only [hrun, if_pos rfl]
                by_cases hset : sameSet l allChangedValues = true
                · simp only [hset, if_true]
                  cases hfp : udpFingerprint msg.state
                  · rfl
                  · exact absurd ⟨⟨l, hch, h7, hset⟩, hrun, hfp⟩ hnot
                · simp [hset]
              · simp [hrun]
            · simp [h7]
          simp only [handleUdp, hdev, hch]
          simp [hsid, hle, hdrop, hstate]

/-- Witness for C3: device `"01"` stored with `run_state = 0`; the
all-7-fields delta carrying the bogus fingerprint is discarded whole, while
the same delta with target 50 (fingerprint broken) is merged, recorded in the
ledger, and notified. -/
theorem C3_anomaly_filter_witness :
    handleUdp 9
        { data := [("01",
            { type := "CM", state := some (.dict [("run_state", JVal.vint 0)]) })],
          udpLast := [] }
        { sid := "01",
          changed := some ["overload", "obstacle", "alarm", "position",
            "current", "target", "running_state"],
          state := [("run_state", JVal.vint 0), ("position", JVal.vint 0),
            ("current", JVal.vint 100), ("target", JVal.vint 100),
            ("timeout", JVal.vint 0)] } =
      ({ data := [("01",
            { type := "CM", state := some (.dict [("run_state", JVal.vint 0)]) })],
          udpLast := [] },
       false) ∧
    handleUdp 9
        { data := [("01",
            { type := "CM", state := some (.dict [("run_state", JVal.vint 0)]) })],
          udpLast := [] }
        { sid := "01",
          changed := some ["overload", "obstacle", "alarm", "position",
            "current", "target", "running_state"],
          state := [("run_state", JVal.vint 0), ("position", JVal.vint 0),
            ("current", JVal.vint 100), ("target", JVal.vint 50),
            ("timeout", JVal.vint 0)] } =
      ({ data := alSet [("01",
            { type := "CM", state := some (.dict [("run_state", JVal.vint 0)]) })]
            "01"
            { type := "CM", state := some (.dict (alUpdate [("run_state", JVal.vint 0)]
              (attachFlags
                { type := "CM", state := some (.dict [("run_state", JVal.vint 0)]) }
                [("run_state", JVal.vint 0), ("position", JVal.vint 0),
                 ("current", JVal.vint 100), ("target", JVal.vint 50),
                 ("timeout", JVal.vint 0)]))) },
          udpLast := alSet [] "01"
            { state := attachFlags
                { type := "CM", state := some (.dict [("run_state", JVal.vint 0)]) }
                [("run_state", JVal.vint 0), ("position", JVal.vint 0),
                 ("current", JVal.vint 100), ("target", JVal.vint 50),
                 ("timeout", JVal.vint 0)],
              ts := 9 } },
       true) :=
  ⟨(C3_anomaly_filter 9
      { data := [("01",
          { type := "CM", state := some (.dict [("run_state", JVal.vint 0)]) })],
        udpLast := [] }
      { sid := "01",
        changed := some ["overload", "obstacle", "alarm", "position",
          "current", "target", "running_state"],
        state := [("run_state", JVal.vint 0), ("position", JVal.vint 0),
          ("current", JVal.vint 100), ("target", JVal.vint 100),
          ("timeout", JVal.vint 0)] }
      { type := "CM", state := some (.dict [("run_state", JVal.vint 0)]) }
      [("run_state", JVal.vint 0)]
      (by decide) (by decide) (by decide)).1
    ⟨["overload", "obstacle", "alarm", "position", "current", "target",
      "running_state"], rfl, by decide, by decide⟩ (by decide) (by decide),
   (C3_anomaly_filter 9
      { data := [("01",
          { type := "CM", state := some (.dict [("run_state", JVal.vint 0)]) })],
        udpLast := [] }
      { sid := "01",
        changed := some ["overload", "obstacle", "alarm", "position",
          "current", "target", "running_state"],
        state := [("run_state", JVal.vint 0), ("position", JVal.vint 0),
          ("current", JVal.vint 100), ("target", JVal.vint 50),
          ("timeout", JVal.vint 0)] }
      { type := "CM", state := some (.dict [("run_state", JVal.vint 0)]) }
      [("run_state", JVal.vint 0)]
      (by decide) (by decide) (by decide)).2
    (by
      rintro ⟨-, -, hfp⟩
      exact absurd hfp (by decide))⟩

/-- C9 (confirmed): a syntactically valid UDP delta targeting an existing
device whose stored record does not carry a dict-valued state (absent, or a
plain string as for Iveo receivers) is dropped after validation: the device
map, the recency ledger and the notification flag are all unchanged. -/
theorem C9_non_dict_state_dropped (now : Int) (st : Store) (msg : UdpMsg)
    (dev : UDevice)
    (hsid : msg.sid ≠ "")
    (hdev : alGet st.data msg.sid = some dev)
    (hnd : dev.state = none ∨ ∃ s, dev.state = some (.str s)) :
    handleUdp now st msg = (st, false) := by
  have hmatch : (match dev.state with
      | some (.dict d0) =>
          ({ data := alSet st.data msg.sid
               { dev with state := some (.dict (alUpdate d0 (attachFlags dev msg.state))) },
             udpLast := alSet st.udpLast msg.sid
               { state := attachFlags dev msg.state, ts := now } },
           true)
      | _ => ((st, false) : Store × Bool)) = (st, false) := by
    rcases hnd with h | ⟨s2, h⟩ <;> rw [h]
  have hF : ∀ ch : Option (List String),
      udpFilterDrops dev ch msg.state = true ∨
      udpFilterDrops dev ch msg.state = false := by
    intro ch
    cases udpFilterDrops dev ch msg.state
    · exact Or.inr rfl
    · exact Or.inl rfl
  simp only [handleUdp, hdev]
  rcases hF (match msg.changed with
      | some l => if l = [] then none else some l
      | none => none) with hd | hd <;>
    simp [hsid, hd, hmatch]

/-- Witness for C9 at an Iveo receiver (string state `"?"`): the delta leaves
the store untouched and does not notify. -/
theorem C9_non_dict_state_dropped_witness :
    handleUdp 3
        { data := [("04", { type := "IV", state := some (.str "?") })],
          udpLast := [] }
        { sid := "04", changed := none,
          state := [("position", JVal.vint 4)] } =
      ({ data := [("04", { type := "IV", state := some (.str "?") })],
         udpLast := [] }, false) :=
  C9_non_dict_state_dropped 3
    { data := [("04", { type := "IV", state := some (.str "?") })],
      udpLast := [] }
    { sid := "04", changed := none, state := [("position", JVal.vint 4)] }
    { type := "IV", state := some (.str "?") }
    (by decide) (by decide) (Or.inr ⟨"?", rfl⟩)

/-- C7 (counterexample): a delta `{"flags": "0000"}` for a Commeo device is
merged with the decoded flags attached under the separate `parsed_flags` key
while the raw `flags` field survives in the merged state — downstream readers
still observe the undecoded bitfield, contradicting "the raw flags value is
replaced". -/
theorem C7_counterexample :
    alGet (handleUdp 5
        { data := [("01", { type := "CM", state := some (.dict []) })],
          udpLast := [] }
        { sid := "01", changed := none,
          state := [("flags", JVal.vstr "0000")] }).1.data "01" =
      some { type := "CM",
             state := some (.dict [("flags", JVal.vstr "0000"),
               ("parsed_flags", JVal.vflags (specFlags 0))]) } ∧
    alGet [("flags", JVal.vstr "0000"),
      ("parsed_flags", JVal.vflags (specFlags 0))] "flags" =
      some (JVal.vstr "0000") := by
  constructor
  · rfl
  · rfl

/-- C7 (amended): for a UDP delta whose raw state carries a decodable flags
field, targeting a Commeo device with a dict-valued state (and no `changed`
list triggering the anomaly filter), the merged delta contains the decoded
`Flags` record under the added `parsed_flags` key while the raw flags field is
kept alongside it, in both the merged device state and the recency ledger. -/
theorem C7_flags_attached_not_replaced (now : Int) (st : Store) (msg : UdpMsg)
    (dev : UDevice) (d : AList JVal) (f : CommeoFlags) (raw : JVal)
    (hsid : msg.sid ≠ "")
    (hdev : alGet st.data msg.sid = some dev)
    (htype : dev.type = "CM")
    (hstate : dev.state = some (.dict d))
    (hch : msg.changed = none)
    (hflags : parseCommeoRawFlags msg.state = .ok f)
    (hraw : alGet msg.state "flags" = some raw)
    (hnod : (alKeys msg.state).Nodup) :
    handleUdp now st msg =
      ({ data := alSet st.data msg.sid
           { dev with state := some (.dict
               (alUpdate d (alSet msg.state "parsed_flags" (.vflags f)))) },
         udpLast := alSet st.udpLast msg.sid
           { state := alSet msg.state "parsed_flags" (.vflags f), ts := now } },
       true) ∧
    alGet (alUpdate d (alSet msg.state "parsed_flags" (.vflags f)))
      "parsed_flags" = some (.vflags f) ∧
    alGet (alUpdate d (alSet msg.state "parsed_flags" (.vflags f)))
      "flags" = some raw := by
  have hattach : attachFlags dev msg.state =
      alSet msg.state "parsed_flags" (.vflags f) := by
    simp [attachFlags, htype, hflags]
  have hnod2 : (alKeys (alSet msg.state "parsed_flags" (.vflags f))).Nodup :=
    alKeys_alSet_nodup msg.state "parsed_flags" (.vflags f) hnod
  refine ⟨?_, ?_, ?_⟩
  · have hdrop : udpFilterDrops dev none msg.state = false := rfl
    simp only [handleUdp, hdev, hch]
    simp [hsid, hdrop, hstate, hattach]
  · exact alGet_alUpdate_mem _ _ _ hnod2
      (alGet_alSet_self msg.state "parsed_flags" (.vflags f)) d
  · refine alGet_alUpdate_mem _ _ _ hnod2 ?_ d
    rw [alGet_alSet_ne msg.state "parsed_flags" "flags" (.vflags f)
      (by decide)]
    exact hraw

/-- Witness for C7 at the delta `{"flags": "0000"}` on Commeo device `"01"`. -/
theorem C7_flags_attached_not_replaced_witness :
    handleUdp 5
        { data := [("01", { type := "CM", state := some (.dict []) })],
          udpLast := [] }
        { sid := "01", changed := none,
          state := [("flags", JVal.vstr "0000")] } =
      ({ data := alSet [("01", { type := "CM", state := some (.dict []) })] "01"
           { type := "CM", state := some (.dict
               (alUpdate [] (alSet [("flags", JVal.vstr "0000")] "parsed_flags"
                 (.vflags (specFlags 0))))) },
         udpLast := alSet [] "01"
           { state := alSet [("flags", JVal.vstr "0000")] "parsed_flags"
               (.vflags (specFlags 0)), ts := 5 } },
       true) ∧
    alGet (alUpdate [] (alSet [("flags", JVal.vstr "0000")] "parsed_flags"
        (.vflags (specFlags 0)))) "parsed_flags" =
      some (.vflags (specFlags 0)) ∧
    alGet (alUpdate [] (alSet [("flags", JVal.vstr "0000")] "parsed_flags"
        (.vflags (specFlags 0)))) "flags" = some (JVal.vstr "0000") :=
  C7_flags_attached_not_replaced 5
    { data := [("01", { type := "CM", state := some (.dict []) })],
      udpLast := [] }
    { sid := "01", changed := none, state := [("flags", JVal.vstr "0000")] }
    { type := "CM", state := some (.dict []) } [] (specFlags 0)
    (JVal.vstr "0000")
    (by decide) (by decide) (by decide) (by decide) (by decide) (by rfl)
    (by decide) (by decide)

/-! ## `get_states` and the Commeo record decoders (server.py 169-331,
448-479) -/

/-- `fix_mojibake` for names without encoding artifacts: `ftfy.fix_encoding`
is the identity on well-encoded text and `.strip()` removes surrounding
whitespace; the empty name is returned unchanged. -/
def fixMojibake (name : String) : String :=
  if name = "" then name
  else String.mk (((name.data.dropWhile isPyWs).reverse.dropWhile
    isPyWs).reverse)

/-- `CommeoDeviceType`: 0 receiver, 1 sensor. -/
inductive CommeoDeviceType where
  | RECEIVER : CommeoDeviceType
  | SENSOR : CommeoDeviceType
deriving DecidableEq, Repr

/-- `CommeoDeviceType.parse_data`: `int(...)` then the enum constructor; any
failure is caught and the value becomes `None`. -/
def parseCommeoDeviceType (s : String) : Option CommeoDeviceType :=
  match pyInt10 s with
  | none => none
  | some n =>
      if n = 0 then some .RECEIVER
      else if n = 1 then some .SENSOR
      else none

/-- `label_for_e_type` (server.py 61-70): the `ETYPE_LABELS` table with the
unknown sub-ranges. -/
def label_for_e_type (code : Option Int) : Option String :=
  match code with
  | none => none
  | some c =>
      if c = 0 then some "Inside Blind"
      else if c = 1 then some "Outside Blind"
      else if c = 2 then some "Inside Awning"
      else if c = 3 then some "Outside Awning"
      else if c = 4 then some "Business Awning"
      else if c = 5 then some "Roller Shutter"
      else if c = 6 then some "Window"
      else if c = 7 then some "Folding Shutter"
      else if c = 16 then some "Night Light"
      else if c = 17 then some "Dusk Light"
      else if c = 18 then some "Heating"
      else if c = 19 then some "Cooling"
      else if c = 20 then some "Switch"
      else if c = 21 then some "Sun Switch"
      else if 8 ≤ c ∧ c ≤ 15 then some "Unknown Motor Type"
      else if 22 ≤ c ∧ c ≤ 31 then some "Unknown Switch Type"
      else some "Unknown"

/-- A raw `"CM"` wire record over the keys the decoders touch; an `Option`
field is `none` when the wire record lacks that key (the dataclass
constructors raise `TypeError` on missing required keys).  Records carrying a
`None`-valued or extra key are outside the modelled input space. -/
structure RawCommeoRecord where
  type : String
  sid : String
  adr : String
  deviceType : Option String
  eType : Option String
  cid : String
  group : Option String
  name : String
  state : Option (AList JVal)
deriving DecidableEq, Repr

/-- The decoded `CommeoReceiverState` dataclass. -/
structure CommeoReceiverState where
  sid : String
  adr : String
  deviceType : Option CommeoDeviceType
  eType : Option String
  eType_code : Option Int
  cid : String
  state : AList JVal
  group : Int
  name : String
deriving DecidableEq, Repr

/-- `CommeoReceiverState.from_response`: reject a non-`"CM"` type
(`ValueError`); `parse_e_type` and `CommeoDeviceType.parse_data` never raise;
`int(data["group"])` raises `ValueError` on a non-decimal value;
`_parse_state(data["state"])` raises `KeyError` when the key is missing and
whatever `parseState` raises; finally the dataclass constructor raises
`TypeError` when a required key (`eType`, `deviceType`, `group`) was absent. -/
def CommeoReceiverState.fromResponse (r : RawCommeoRecord) :
    Except DecodeErr CommeoReceiverState :=
  if r.type ≠ "CM" then .error .valueError
  else
    match r.group with
    | some g =>
        match pyInt10 g with
        | none => .error .valueError
        | some gn =>
            match r.state with
            | none => .error .keyError
            | some st0 =>
                match parseState st0 with
                | .error e => .error e
                | .ok st =>
                    match r.eType, r.deviceType with
                    | some es, some dts =>
                        .ok { sid := r.sid, adr := r.adr,
                              deviceType := parseCommeoDeviceType dts,
                              eType := label_for_e_type (pyInt10 es),
                              eType_code := pyInt10 es,
                              cid := r.cid, state := st, group := gn,
                              name := r.name }
                    | _, _ => .error .typeError
    | none =>
        match r.state with
        | none => .error .keyError
        | some st0 =>
            match parseState st0 with
            | .error e => .error e
            | .ok _ => .error .typeError

/-- The decoded `CommeoSensorState` dataclass. -/
structure CommeoSensorState where
  sid : String
  adr : String
  deviceType : Option CommeoDeviceType
  cid : String
  state : AList JVal
  name : String
deriving DecidableEq, Repr

/-- `CommeoSensorState.from_response`: type check, `parse_data`, the `group`
`int` conversion when present; the sensor dataclass accepts no `group` or
`eType` field, so records carrying those keys raise `TypeError` at
construction; the sensor state is stored raw (no `_parse_state`). -/
def CommeoSensorState.fromResponse (r : RawCommeoRecord) :
    Except DecodeErr CommeoSensorState :=
  if r.type ≠ "CM" then .error .valueError
  else
    match r.group with
    | some g =>
        match pyInt10 g with
        | none => .error .valueError
        | some _ => .error .typeError
    | none =>
        match r.eType with
        | some _ => .error .typeError
        | none =>
            match r.state, r.deviceType with
            | some st0, some dts =>
                .ok { sid := r.sid, adr := r.adr,
                      deviceType := parseCommeoDeviceType dts,
                      cid := r.cid, state := st0, name := r.name }
            | _, _ => .error .typeError

/-- A raw `"IV"` wire record. -/
structure RawIveoRecord where
  type : String
  sid : String
  adr : String
  config : Option String
  state : Option String
deriving DecidableEq, Repr

/-- The decoded `IveoReceiverState` dataclass. -/
structure IveoReceiverState where
  sid : String
  adr : String
  config : String
  state : String
deriving DecidableEq, Repr

/-- `IveoReceiverState.from_response`: reject a non-`"IV"` type; missing
required keys raise `TypeError` at construction. -/
def IveoReceiverState.fromResponse (r : RawIveoRecord) :
    Except DecodeErr IveoReceiverState :=
  if r.type ≠ "IV" then .error .valueError
  else
    match r.config, r.state with
    | some c, some st => .ok { sid := r.sid, adr := r.adr, config := c, state := st }
    | _, _ => .error .typeError

/-- One raw record of the `GetStates` array, discriminated by shape; the
constructor mirrors the record's `type` discriminator, which each
`from_response` re-checks. -/
inductive RawDeviceRecord where
  | cm : RawCommeoRecord → RawDeviceRecord
  | iv : RawIveoRecord → RawDeviceRecord
  | sgroup : RawGroupRecord → RawDeviceRecord
  | event : RawDeviceRecord
  | other : String → RawDeviceRecord
deriving DecidableEq, Repr

/-- The tagged union stored in the snapshot map. -/
inductive SelveDevice where
  | receiver : CommeoReceiverState → SelveDevice
  | sensor : CommeoSensorState → SelveDevice
  | iveo : IveoReceiverState → SelveDevice
  | group : DeviceGroupState → SelveDevice
deriving DecidableEq, Repr

/-- The diagnostics `get_states` logs for skipped records. -/
inductive Diag where
  | unknownCommeoDeviceType : String → Diag
  | unknownStateType : String → Diag
deriving DecidableEq, Repr

/-- The loop of `get_states` (server.py 448-479) over the raw record array,
building the sid-indexed snapshot and the logged diagnostics.  Records with an
unknown Commeo `deviceType` or an unknown `type` are skipped with a
diagnostic and `"EVENT"` records are ignored, but a `from_response` exception
propagates — there is no try/except around the per-record decoding. -/
def getStatesAux : List RawDeviceRecord → AList SelveDevice → List Diag →
    Except DecodeErr (AList SelveDevice × List Diag)
  | [], acc, ds => .ok (acc, ds)
  | rec :: rest, acc, ds =>
      match rec with
      | .cm r =>
          if r.deviceType.getD "" = "00" then
            match CommeoReceiverState.fromResponse r with
            | .error e => .error e
            | .ok recv =>
                getStatesAux rest
                  (alSet acc recv.sid
                    (.receiver { recv with name := fixMojibake recv.name })) ds
          else if r.deviceType.getD "" = "01" then
            match CommeoSensorState.fromResponse r with
            | .error e => .error e
            | .ok sen =>
                getStatesAux rest
                  (alSet acc sen.sid
                    (.sensor { sen with name := fixMojibake sen.name })) ds
          else
            getStatesAux rest acc
              (ds ++ [.unknownCommeoDeviceType (r.deviceType.getD "")])
      | .iv r =>
          match IveoReceiverState.fromResponse r with
          | .error e => .error e
          | .ok iveo => getStatesAux rest (alSet acc iveo.sid (.iveo iveo)) ds
      | .sgroup r =>
          match DeviceGroupState.fromResponse r with
          | .error e => .error e
          | .ok g =>
              getStatesAux rest
                (alSet acc g.sid
                  (.group { g with name := fixMojibake g.name })) ds
      | .event => getStatesAux rest acc ds
      | .other t => getStatesAux rest acc (ds ++ [.unknownStateType t])

/-- `SeleveHomeServer.get_states` applied to the decoded `XC_SUC` array. -/
def getStates (records : List RawDeviceRecord) :
    Except DecodeErr (AList SelveDevice × List Diag) :=
  getStatesAux records [] []

/-- C4 (code bug): `get_states` has no try/except around the per-record
decoders, so a Commeo record whose decode raises (here: flags `"zz"`, a
`ValueError` from `int(flags, 10)`) aborts the whole snapshot instead of being
skipped; without the malformed record the same two valid records decode to a
two-device snapshot with no diagnostics.  The spec (sections 4.2 and 7) requires the
malformed record to be logged and skipped, never to abort the snapshot. -/
theorem C4_get_states_code_bug :
    getStates
        [.cm { type := "CM", sid := "0A", adr := "0A", deviceType := some "00",
               eType := some "5", cid := "0A", group := some "0", name := "Bad",
               state := some [("flags", JVal.vstr "zz")] },
         .cm { type := "CM", sid := "01", adr := "01", deviceType := some "00",
               eType := some "5", cid := "01", group := some "0", name := "One",
               state := some [("flags", JVal.vstr "0")] },
         .cm { type := "CM", sid := "02", adr := "02", deviceType := some "00",
               eType := some "6", cid := "02", group := some "0", name := "Two",
               state := some [("flags", JVal.vstr "0")] }] =
      .error .valueError ∧
    getStates
        [.cm { type := "CM", sid := "01", adr := "01", deviceType := some "00",
               eType := some "5", cid := "01", group := some "0", name := "One",
               state := some [("flags", JVal.vstr "0")] },
         .cm { type := "CM", sid := "02", adr := "02", deviceType := some "00",
               eType := some "6", cid := "02", group := some "0", name := "Two",
               state := some [("flags", JVal.vstr "0")] }] =
      .ok ([("01", .receiver
              { sid := "01", adr := "01", deviceType := some .RECEIVER,
                eType := some "Roller Shutter", eType_code := some 5,
                cid := "01",
                state := [("flags", JVal.vstr "0"),
                  ("attributes", JVal.vflags (parseFlags 0))],
                group := 0, name := "One" }),
            ("02", .receiver
              { sid := "02", adr := "02", deviceType := some .RECEIVER,
                eType := some "Window", eType_code := some 6, cid := "02",
                state := [("flags", JVal.vstr "0"),
                  ("attributes", JVal.vflags (parseFlags 0))],
                group := 0, name := "Two" })], []) := by
  constructor
  · rfl
  · rfl

end Selve
